import Mathlib

/-!
Verification development for the contui terminal dashboard.

This file gives a shallow embedding, in Lean 4, of the parts of the
contui source that its specification talks about:

* the exec command selector and shell detection (src/docker/exec.rs),
* the key-event encoder for exec input (src/exec/input.rs),
* the log / stats fetch coordinators (src/docker/logs.rs,
  src/docker/stats.rs, and their polling in src/app.rs),
* the exec session manager (start / poll-start / poll-output in
  src/app.rs) together with the slice of `AppState`
  (src/state/app_state.rs) those operations touch, and
* a model of the vt100 virtual-terminal adapter for the byte fragment
  the exec scenarios exercise.

Machine integers (`u16`, `usize`) are modelled as `Nat`, with an
explicit `% 2 ^ 16` where a `u16` multiplication may overflow and
truncated subtraction standing in for `saturating_sub`.  Channels are
modelled by the identity of the channel (a freshly allocated `Nat`) on
the receiver side, and by the list of messages currently available on
the polled side; a worker's result can reach the main loop only through
the channel stored in the corresponding `*_rx` field, so "the receiver
for channel c is held" is the observability condition for worker c.
Wall-clock data (timestamps, uuids) carried by notifications and log
entries is omitted: no modelled operation reads it.
-/

/-! ## Command selector (src/docker/exec.rs) -/

/-- The characters after the last slash (the whole string when it has
no slash): Rust's `s.rsplit('/').next().unwrap_or(s)`, which always
yields the final slash-separated component. -/
def basenameAfterSlash (s : String) : String :=
  String.mk ((s.data.reverse.takeWhile (fun c => c ≠ '/')).reverse)

/-- `looks_like_shell` from src/docker/exec.rs: the first token's
basename (the part after the last slash) is a known shell name, or any
argument is a shell run-string flag. -/
def looks_like_shell (cmd : List String) : Bool :=
  match cmd with
  | [] => false
  | first :: _ =>
    let base := basenameAfterSlash first
    (base == "sh" || base == "bash" || base == "zsh" || base == "ash" || base == "dash")
      || cmd.any (fun c => c == "-lc" || c == "-c")

/-- `select_exec_command` from src/docker/exec.rs: keep a
shell-looking entrypoint/cmd (adding the interactive flag when the kept
vector is a single token without one), otherwise fall back to the fixed
generic shell invocation. -/
def select_exec_command (entrypoint cmd : List String) : List String :=
  if looks_like_shell entrypoint || looks_like_shell cmd then
    let out := entrypoint ++ cmd
    if out.isEmpty then ["/bin/sh", "-lc"]
    else if out.length == 1 && !(out.any (fun c => c == "-i" || c == "-c" || c == "-lc")) then
      out ++ ["-i"]
    else out
  else ["/bin/sh", "-lc"]

/-! ## Key encoder (src/exec/input.rs) -/

/-- The crossterm key codes `encode_key_event` distinguishes; all
remaining crossterm variants fall into the wildcard arm of the Rust
match and are collapsed into `other`.  `KeyCode::End` is spelled
`endKey` because `end` is a Lean keyword. -/
inductive KeyCode where
  | enter | backspace | tab | esc
  | up | down | right | left
  | home | endKey | pageUp | pageDown | delete | insert
  | char (c : Char)
  | other
deriving DecidableEq

/-- The modifier bits of `crossterm::event::KeyModifiers`;
`contains(KeyModifiers::CONTROL)` reads the `control` bit. -/
structure KeyModifiers where
  shift : Bool
  control : Bool
  alt : Bool
deriving DecidableEq

/-- `crossterm::event::KeyEvent`, restricted to the fields
`encode_key_event` reads. -/
structure KeyEvent where
  code : KeyCode
  modifiers : KeyModifiers
deriving DecidableEq

/-- UTF-8 encoding of a Unicode scalar value, the bytes Rust's
`char::to_string().into_bytes()` produces. -/
def utf8Encode (n : Nat) : List Nat :=
  if n < 0x80 then [n]
  else if n < 0x800 then [0xC0 + n / 0x40, 0x80 + n % 0x40]
  else if n < 0x10000 then
    [0xE0 + n / 0x1000, 0x80 + (n / 0x40) % 0x40, 0x80 + n % 0x40]
  else
    [0xF0 + n / 0x40000, 0x80 + (n / 0x1000) % 0x40, 0x80 + (n / 0x40) % 0x40, 0x80 + n % 0x40]

/-- `encode_key_event` from src/exec/input.rs.  The reserved detach
shortcut Ctrl+e is checked first and encodes to nothing; Ctrl+letter
encodes to `(c as u8) & 0x1f` (the cast to `u8` is the `% 256`); plain
characters encode to their UTF-8 bytes. -/
def encode_key_event (key : KeyEvent) : Option (List Nat) :=
  if key.code = KeyCode.char 'e' ∧ key.modifiers.control = true then none
  else
    match key.code with
    | KeyCode.enter => some [13]
    | KeyCode.backspace => some [0x7f]
    | KeyCode.tab => some [9]
    | KeyCode.esc => some [0x1b]
    | KeyCode.up => some [0x1b, 91, 65]
    | KeyCode.down => some [0x1b, 91, 66]
    | KeyCode.right => some [0x1b, 91, 67]
    | KeyCode.left => some [0x1b, 91, 68]
    | KeyCode.home => some [0x1b, 91, 72]
    | KeyCode.endKey => some [0x1b, 91, 70]
    | KeyCode.pageUp => some [0x1b, 91, 53, 126]
    | KeyCode.pageDown => some [0x1b, 91, 54, 126]
    | KeyCode.delete => some [0x1b, 91, 51, 126]
    | KeyCode.insert => some [0x1b, 91, 50, 126]
    | KeyCode.char c =>
      if key.modifiers.control = true then some [c.toNat % 256 &&& 0x1f]
      else some (utf8Encode c.toNat)
    | KeyCode.other => none

/-! ## Application state slice (src/state/app_state.rs) -/

/-- `NotificationLevel` from src/state/app_state.rs. -/
inductive NotificationLevel where
  | info | success | warning | error
deriving DecidableEq

/-- `Notification` from src/state/app_state.rs, without the uuid and
the wall-clock timestamp (only age-based expiry reads them, which no
modelled operation performs). -/
structure Notification where
  message : String
  level : NotificationLevel
deriving DecidableEq

/-- `LogEntry` from src/docker/logs.rs; the parsed RFC3339 timestamp is
kept as the raw timestamp string (no modelled operation computes with
it). -/
structure LogEntryM where
  timestamp : Option String
  message : String
  is_stderr : Bool
deriving DecidableEq

/-- `StatsEntry` from src/docker/stats.rs, restricted to its integer
fields; the `f64` fields (`cpu_percent`, `memory_percent`) and the
timestamp are omitted (floating point, wall clock). -/
structure StatsEntryM where
  memory_usage : Nat
  memory_limit : Nat
  network_rx : Nat
  network_tx : Nat
  block_read : Nat
  block_write : Nat
  pids : Nat
deriving DecidableEq

/-- `LogViewState` from src/state/app_state.rs, restricted to the
fields touched by `add_log_entry` and the fetch coordinator; the
search/filter fields are read by no modelled operation and omitted. -/
structure LogViewState where
  container_id : String
  container_name : String
  logs : List LogEntryM
  scroll_offset : Nat
  follow : Bool
  max_lines : Nat
deriving DecidableEq

/-- `StatsViewState` from src/state/app_state.rs. -/
structure StatsViewState where
  container_id : String
  container_name : String
  stats : Option StatsEntryM
  follow : Bool
  error : Option String
deriving DecidableEq

/-- `ExecViewState` from src/state/app_state.rs. -/
structure ExecViewState where
  container_id : String
  container_name : String
  focus : Bool
  status : String
  screen_lines : List String
  cursor : Option (Nat × Nat)
deriving DecidableEq

/-- A container row as the exec start path reads it (`id` and `names`
of `ContainerInfo`). -/
structure ContainerInfo where
  id : String
  names : List String
deriving DecidableEq

/-- The slice of `AppState` (src/state/app_state.rs) that the modelled
operations read or write. -/
structure AppState where
  containers : List ContainerInfo
  notifications : List Notification
  log_view : Option LogViewState
  stats_view : Option StatsViewState
  exec_view : Option ExecViewState
  terminal_size : Nat × Nat
deriving DecidableEq

/-- `AppState::add_notification`: push, then evict the oldest entry
when the queue exceeds 10. -/
def AppState.add_notification (st : AppState) (msg : String) (lvl : NotificationLevel) :
    AppState :=
  let ns := st.notifications ++ [{ message := msg, level := lvl }]
  { st with notifications := if ns.length > 10 then ns.drop 1 else ns }

/-- `AppState::add_log_entry`: append to the log view buffer, trim to
`max_lines` evicting the oldest line (shifting the scroll offset), and
auto-scroll to the end in follow mode. -/
def AppState.add_log_entry (st : AppState) (entry : LogEntryM) : AppState :=
  match st.log_view with
  | none => st
  | some lv =>
    let logs := lv.logs ++ [entry]
    let trimmed := logs.length > lv.max_lines
    let logs := if trimmed then logs.drop 1 else logs
    let scroll := if trimmed ∧ lv.scroll_offset > 0 then lv.scroll_offset - 1
                  else lv.scroll_offset
    let scroll := if lv.follow then logs.length - 1 else scroll
    { st with log_view := some { lv with logs := logs, scroll_offset := scroll } }

/-- `AppState::update_stats`: store the snapshot in the stats view and
clear any error. -/
def AppState.update_stats (st : AppState) (s : StatsEntryM) : AppState :=
  match st.stats_view with
  | none => st
  | some sv => { st with stats_view := some { sv with stats := some s, error := none } }

/-- `AppState::set_stats_error`. -/
def AppState.set_stats_error (st : AppState) (e : String) : AppState :=
  match st.stats_view with
  | none => st
  | some sv => { st with stats_view := some { sv with error := some e } }

/-- `AppState::open_exec_view`: install a fresh exec view and close the
stats view to avoid stacking bottom panels. -/
def AppState.open_exec_view (st : AppState) (container_id container_name : String) :
    AppState :=
  { st with
    exec_view := some
      { container_id := container_id
        container_name := container_name
        focus := true
        status := "Starting"
        screen_lines := []
        cursor := none }
    stats_view := none }

/-- `AppState::close_exec_view`. -/
def AppState.close_exec_view (st : AppState) : AppState :=
  { st with exec_view := none }

/-- `AppState::update_exec_screen`. -/
def AppState.update_exec_screen (st : AppState) (lines : List String)
    (status : Option String) : AppState :=
  match st.exec_view with
  | none => st
  | some ev =>
    { st with
      exec_view := some
        { ev with
          screen_lines := lines
          status := match status with | some s => s | none => ev.status } }

/-- `AppState::set_exec_status`. -/
def AppState.set_exec_status (st : AppState) (status : String) : AppState :=
  match st.exec_view with
  | none => st
  | some ev => { st with exec_view := some { ev with status := status } }

/-! ## Virtual terminal adapter (vt100 crate, as used by src/app.rs)

The exec session manager feeds raw output bytes into a
`vt100::Parser` and reads `screen().contents()` back.  The fragment of
the terminal-state machine those scenarios exercise — printable ASCII,
carriage return, line feed — is modelled here; other bytes are left as
no-ops.  `contents()` trims trailing spaces from each row and trailing
blank rows from the screen, and the caller splits the result on
newlines, which `Term.contentsLines` produces directly. -/

/-- The character grid and cursor of a `vt100::Parser`. -/
structure Term where
  rows : Nat
  cols : Nat
  grid : List (List Char)
  cur_row : Nat
  cur_col : Nat
deriving DecidableEq

/-- `vt100::Parser::new(rows, cols, 0)`: a blank `rows × cols` screen
with the cursor at the origin. -/
def Term.init (rows cols : Nat) : Term :=
  { rows := rows
    cols := cols
    grid := List.replicate rows (List.replicate cols ' ')
    cur_row := 0
    cur_col := 0 }

/-- Move the cursor down one row, scrolling the grid when at the
bottom. -/
def Term.lineFeed (t : Term) : Term :=
  if t.cur_row + 1 < t.rows then { t with cur_row := t.cur_row + 1 }
  else { t with grid := t.grid.drop 1 ++ [List.replicate t.cols ' '] }

/-- Write one printable character at the cursor, wrapping to the next
row when past the right edge. -/
def Term.putChar (t : Term) (c : Char) : Term :=
  if t.cur_col < t.cols then
    { t with
      grid := t.grid.set t.cur_row ((t.grid.getD t.cur_row []).set t.cur_col c)
      cur_col := t.cur_col + 1 }
  else
    let t := t.lineFeed
    { t with
      grid := t.grid.set t.cur_row ((t.grid.getD t.cur_row []).set 0 c)
      cur_col := 1 }

/-- Process one output byte: carriage return, line feed, or printable
ASCII; all other bytes are ignored in this fragment. -/
def Term.processByte (t : Term) (b : Nat) : Term :=
  if b = 13 then { t with cur_col := 0 }
  else if b = 10 then t.lineFeed
  else if 32 ≤ b ∧ b ≤ 126 then t.putChar (Char.ofNat b)
  else t

/-- `vt100::Parser::process`. -/
def Term.process (t : Term) (bs : List Nat) : Term :=
  bs.foldl Term.processByte t

/-- Trailing spaces of a row, trimmed. -/
def rtrimRow (l : List Char) : List Char :=
  (l.reverse.dropWhile (fun c => c = ' ')).reverse

/-- The display lines of `screen().contents()` after the caller splits
on newlines: each row with trailing spaces trimmed, trailing blank rows
dropped. -/
def Term.contentsLines (t : Term) : List String :=
  let rows := t.grid.map (fun r => String.mk (rtrimRow r))
  (rows.reverse.dropWhile (fun s => s = "")).reverse

/-! ## The application (src/app.rs)

`App` carries, next to the state slice, the channel-receiver fields of
the fetch coordinators and the exec session manager.  A channel is
identified by the `Nat` allocated from `next_channel` when it is
created; dropping a receiver is setting its field to `none`.  `jobs`
records the container id of every submitted exec start job, so that
"no new job is submitted" is expressible.  The exec output channel is
modelled by the list of chunks currently available to `try_recv`. -/

/-- The messages the exec output forwarder sends: raw chunks, then the
end sentinel (`ExecOutput` in src/app.rs). -/
inductive ExecOutputM where
  | bytes (bs : List Nat)
  | streamEnd
deriving DecidableEq

/-- `ExecRuntime` from src/app.rs: the promoted session's handles.  The
stdin writer is an opaque handle not read by any modelled operation and
is omitted; `output_rx` holds the chunks currently available on the
output channel. -/
structure ExecRuntime where
  exec_id : String
  container_id : String
  parser : Term
  output_rx : List ExecOutputM
  size : Nat × Nat
deriving DecidableEq

/-- `ExecStartPending` from src/app.rs. -/
structure ExecStartPending where
  container_id : String
  spinner_index : Nat
deriving DecidableEq

/-- `ExecStartResult` from src/app.rs; `started` carries the exec id of
the created session in place of the opaque handle bundle. -/
inductive ExecStartResultM where
  | started (exec_id : String) (container_id : String) (container_name : String)
      (size : Nat × Nat)
  | failed (container_id : String) (message : String)
deriving DecidableEq

/-- What a near-zero-timeout poll of a result channel can observe:
a delivered result, a closed channel, or nothing yet. -/
inductive RecvOutcome (α : Type) where
  | ready (r : α)
  | closed
  | pending
deriving DecidableEq

/-- The `App` fields (src/app.rs) the modelled operations touch.
`docker_connected` is `docker_client.is_some()`; it is set at
construction and changed by no modelled operation. -/
structure App where
  state : AppState
  docker_connected : Bool
  log_fetch_rx : Option Nat
  stats_fetch_rx : Option Nat
  exec_runtime : Option ExecRuntime
  exec_start_rx : Option Nat
  exec_start_pending : Option ExecStartPending
  jobs : List String
  next_channel : Nat
deriving DecidableEq

/-! ## Fetch coordinators (src/app.rs, src/docker/logs.rs, src/docker/stats.rs) -/

/-- `App::start_log_streaming`: when connected, drop any previous
receiver, emit the Info notification, store the receiver of a fresh
channel and hand its sender to the spawned worker; otherwise emit an
Error notification and change nothing else. -/
def start_log_streaming (app : App) (container_id : String) : App :=
  if app.docker_connected then
    { app with
      state := app.state.add_notification "Fetching logs..." NotificationLevel.info
      log_fetch_rx := some app.next_channel
      next_channel := app.next_channel + 1 }
  else
    { app with
      state := app.state.add_notification "Not connected to Docker" NotificationLevel.error }

/-- `App::start_stats_streaming`: as for logs but with no Info
notification on the success path. -/
def start_stats_streaming (app : App) (container_id : String) : App :=
  if app.docker_connected then
    { app with
      stats_fetch_rx := some app.next_channel
      next_channel := app.next_channel + 1 }
  else
    { app with
      state := app.state.add_notification "Not connected to Docker" NotificationLevel.error }

/-- The two fetch coordinator kinds. -/
inductive FetchKind where
  | log | stats
deriving DecidableEq

/-- One fetch-start call: `start_log_streaming` or
`start_stats_streaming` for a container id. -/
def start_fetch (app : App) : FetchKind × String → App
  | (FetchKind.log, id) => start_log_streaming app id
  | (FetchKind.stats, id) => start_stats_streaming app id

/-- A sequence of fetch-start calls. -/
def runStarts (app : App) (l : List (FetchKind × String)) : App :=
  l.foldl start_fetch app

/-- The receiver currently held for a resource kind. -/
def rxOf : FetchKind → App → Option Nat
  | FetchKind.log, app => app.log_fetch_rx
  | FetchKind.stats, app => app.stats_fetch_rx

/-- The live receivers held for a resource kind (zero or one: the
field is an `Option`, mirroring the Rust field). -/
def inflightReceivers (k : FetchKind) (app : App) : List Nat :=
  (rxOf k app).toList

/-- A worker's result is observable only while the receiver of the
channel it sends on is the one the coordinator holds. -/
def fetchObservable (k : FetchKind) (chan : Nat) (app : App) : Prop :=
  rxOf k app = some chan

/-- What the log stream yields to one iteration of the `fetch_logs`
loop, within the 2s per-item timeout: an item that parses to an entry,
an item that is a stream error or fails to parse (both continue the
loop), the end of the stream, or no item before the timeout fires. -/
inductive LogStreamEvent where
  | okItem (e : LogEntryM)
  | badItem
  | streamEnd
  | hang
deriving DecidableEq

/-- The loop of `DockerClient::fetch_logs` (src/docker/logs.rs):
accumulate parsed entries, stop once `tail` entries are collected, on
stream end, or on a per-item timeout. -/
def fetch_logs_loop (tail : Nat) (acc : List LogEntryM) :
    List LogStreamEvent → List LogEntryM
  | [] => acc
  | LogStreamEvent.okItem e :: rest =>
    let acc := acc ++ [e]
    if acc.length ≥ tail then acc else fetch_logs_loop tail acc rest
  | LogStreamEvent.badItem :: rest => fetch_logs_loop tail acc rest
  | LogStreamEvent.streamEnd :: _ => acc
  | LogStreamEvent.hang :: _ => acc

/-- `DockerClient::fetch_logs`: the loop's entries, always returned as
a success (every exit of the Rust loop falls through to
`Ok(entries)`). -/
def fetch_logs (tail : Nat) (events : List LogStreamEvent) :
    Except String (List LogEntryM) :=
  Except.ok (fetch_logs_loop tail [] events)

instance {ε α : Type} [DecidableEq ε] [DecidableEq α] : DecidableEq (Except ε α)
  | Except.ok a, Except.ok b =>
    if h : a = b then Decidable.isTrue (by rw [h])
    else Decidable.isFalse (by intro hh; cases hh; exact h rfl)
  | Except.ok _, Except.error _ => Decidable.isFalse (by intro h; cases h)
  | Except.error _, Except.ok _ => Decidable.isFalse (by intro h; cases h)
  | Except.error a, Except.error b =>
    if h : a = b then Decidable.isTrue (by rw [h])
    else Decidable.isFalse (by intro hh; cases hh; exact h rfl)

/-- What the stats stream yields to the single awaited item of
`fetch_stats`, within its 5s timeout: an item with its parse outcome, a
stream error, the end of the stream, or no item before the timeout. -/
inductive StatsStreamEvent where
  | okItem (parsed : Except String StatsEntryM)
  | errItem (message : String)
  | streamEnd
  | hang
deriving DecidableEq

/-- `DockerClient::fetch_stats` (src/docker/stats.rs): only the first
stream event is examined. -/
def fetch_stats (first : StatsStreamEvent) : Except String StatsEntryM :=
  match first with
  | StatsStreamEvent.okItem parsed => parsed
  | StatsStreamEvent.errItem m => Except.error ("Failed to read stats: " ++ m)
  | StatsStreamEvent.streamEnd => Except.error "Stats stream ended unexpectedly"
  | StatsStreamEvent.hang => Except.error "Timeout waiting for stats"

/-- `App::check_log_fetch`: poll the held receiver with a near-zero
timeout; a success with entries appends them (no notification), a
success with zero entries appends nothing and notifies nothing, a
failure emits an Error notification; ready and closed outcomes clear
the receiver. -/
def check_log_fetch (app : App)
    (recv : RecvOutcome (Except String (List LogEntryM))) : App :=
  match app.log_fetch_rx with
  | none => app
  | some _ =>
    match recv with
    | RecvOutcome.ready (Except.ok entries) =>
      let app := { app with log_fetch_rx := none }
      if entries.length > 0 then
        { app with state := entries.foldl AppState.add_log_entry app.state }
      else app
    | RecvOutcome.ready (Except.error e) =>
      { app with
        log_fetch_rx := none
        state := app.state.add_notification ("Failed to fetch logs: " ++ e)
          NotificationLevel.error }
    | RecvOutcome.closed => { app with log_fetch_rx := none }
    | RecvOutcome.pending => app

/-- `App::check_stats_fetch`. -/
def check_stats_fetch (app : App)
    (recv : RecvOutcome (Except String StatsEntryM)) : App :=
  match app.stats_fetch_rx with
  | none => app
  | some _ =>
    match recv with
    | RecvOutcome.ready (Except.ok s) =>
      { app with stats_fetch_rx := none, state := app.state.update_stats s }
    | RecvOutcome.ready (Except.error e) =>
      { app with
        stats_fetch_rx := none
        state := (app.state.set_stats_error e).add_notification
          ("Failed to fetch stats: " ++ e) NotificationLevel.error }
    | RecvOutcome.closed => { app with stats_fetch_rx := none }
    | RecvOutcome.pending => app

/-! ## Exec session manager (src/app.rs) -/

/-- `spinner::FRAMES` (src/exec/spinner.rs). -/
def spinnerFrames : List String := ["|", "/", "-", "\\"]

/-- `spinner::frame`. -/
def spinnerFrame (index : Nat) : String :=
  spinnerFrames.getD (index % spinnerFrames.length) "|"

/-- `format_exec_start_status` (src/app.rs). -/
def format_exec_start_status (frame : String) : String :=
  "Starting " ++ frame

/-- `compute_exec_pane_size` (src/app.rs).  `u16` arithmetic: the
`* 60` may overflow and is reduced `% 2 ^ 16`; `saturating_sub` is
truncated `Nat` subtraction; `EXEC_PANEL_HEIGHT` is 10. -/
def compute_exec_pane_size (term_width term_height : Nat) : Nat × Nat :=
  let sidebar_width := max 12 (min (term_width / 5) 20)
  let content_width := term_width - sidebar_width
  let list_width := (content_width * 60 % 2 ^ 16) / 100
  let cols := max (list_width - 2) 1
  let rows := max (min (10 - 2) (term_height - 2)) 1
  (cols, rows)

/-- The container-name lookup in `App::start_exec_for_container`: the
first name of the matching row, else the id truncated to 12
characters. -/
def lookupContainerName (containers : List ContainerInfo) (id : String) : String :=
  match (containers.find? (fun c => c.id == id)).bind (fun c => c.names.head?) with
  | some n => n
  | none => (id.take 12)

/-- `App::start_exec_for_container`:
an active session for the same id is closed (back to Idle); an active
session for another id is rejected with one Warning notification; the
same for a pending start; otherwise (when connected) the exec view is
opened, the Starting status installed, the pending record and the
receiver of a fresh result channel stored, and the start job submitted
(recorded in `jobs`; the job body — inspect, select the command,
create the exec — runs on the worker). -/
def start_exec_for_container (app : App) (id : String) : App :=
  match app.exec_runtime with
  | some runtime =>
    if runtime.container_id == id then
      { app with state := app.state.close_exec_view, exec_runtime := none }
    else
      { app with
        state := app.state.add_notification "Exec already active for another container"
          NotificationLevel.warning }
  | none =>
  match app.exec_start_pending with
  | some pending =>
    if pending.container_id == id then
      { app with
        state := app.state.close_exec_view
        exec_start_pending := none
        exec_start_rx := none }
    else
      { app with
        state := app.state.add_notification "Exec already starting for another container"
          NotificationLevel.warning }
  | none =>
    if !app.docker_connected then
      { app with
        state := app.state.add_notification "Docker not connected" NotificationLevel.error }
    else
      let container_name := lookupContainerName app.state.containers id
      { app with
        state := ((app.state.open_exec_view id container_name).set_exec_status
          (format_exec_start_status (spinnerFrame 0)))
        exec_start_pending := some { container_id := id, spinner_index := 0 }
        exec_start_rx := some app.next_channel
        next_channel := app.next_channel + 1
        jobs := app.jobs ++ [id] }

/-- `App::check_exec_start`: poll the start-result channel.  A result
whose container id no longer matches the pending record is discarded;
a matching success is promoted to Running (fresh terminal at the
negotiated size, fresh empty output channel, "Exec started" Info
notification); a matching failure records the error; a closed channel
with a pending record is a cancellation. -/
def check_exec_start (app : App) (recv : RecvOutcome ExecStartResultM) : App :=
  match app.exec_start_rx with
  | none => app
  | some _ =>
    match recv with
    | RecvOutcome.ready result =>
      let app := { app with exec_start_rx := none }
      match result with
      | ExecStartResultM.started exec_id container_id container_name size =>
        let matches_pending :=
          match app.exec_start_pending with
          | some p => p.container_id == container_id
          | none => false
        if !matches_pending then app
        else
          let app := { app with exec_start_pending := none }
          let st :=
            match app.state.exec_view with
            | some ev =>
              { app.state with
                exec_view := some
                  { ev with container_id := container_id, container_name := container_name } }
            | none => app.state
          { app with
            state := (st.set_exec_status "Running").add_notification "Exec started"
              NotificationLevel.info
            exec_runtime := some
              { exec_id := exec_id
                container_id := container_id
                parser := Term.init size.2 size.1
                output_rx := []
                size := size } }
      | ExecStartResultM.failed container_id message =>
        let matches_pending :=
          match app.exec_start_pending with
          | some p => p.container_id == container_id
          | none => false
        if !matches_pending then app
        else
          { app with
            exec_start_pending := none
            state := (app.state.set_exec_status ("Failed: " ++ message)).add_notification
              ("Exec failed: " ++ message) NotificationLevel.error }
    | RecvOutcome.closed =>
      let app := { app with exec_start_rx := none }
      match app.exec_start_pending with
      | some _ =>
        { app with
          exec_start_pending := none
          state := (app.state.set_exec_status "Failed: exec start canceled").add_notification
            "Exec start canceled" NotificationLevel.error }
      | none => app
    | RecvOutcome.pending => app

/-- The drain loop of `App::check_exec_output`: feed each available
chunk to the terminal, recomputing the screen lines after each chunk;
stop at the end sentinel (leaving later messages on the channel) or
when the channel is drained. -/
def drainExecOutput (t : Term) (lines : Option (List String)) :
    List ExecOutputM → Term × Option (List String) × Bool × List ExecOutputM
  | [] => (t, lines, false, [])
  | ExecOutputM.bytes bs :: rest =>
    let t := t.process bs
    drainExecOutput t (some t.contentsLines) rest
  | ExecOutputM.streamEnd :: rest => (t, lines, true, rest)

/-- `App::check_exec_output`: drain the output channel, push the last
recomputed screen lines into the exec view, and on the end sentinel
tear the session down (close the view, drop the runtime) and emit the
"Exec ended" Info notification. -/
def check_exec_output (app : App) : App :=
  match app.exec_runtime with
  | none => app
  | some runtime =>
    let (t, lines, ended, rest) := drainExecOutput runtime.parser none runtime.output_rx
    let st :=
      match lines with
      | some l => app.state.update_exec_screen l none
      | none => app.state
    if ended then
      { app with
        state := (st.close_exec_view).add_notification "Exec ended" NotificationLevel.info
        exec_runtime := none }
    else
      { app with
        state := st
        exec_runtime := some { runtime with parser := t, output_rx := rest } }

/-! ## Theorems -/

/-- Low five bits of a byte-sized value coincide with the value mod 32
(the control-code arithmetic of the encoder). -/
theorem land_31_eq_mod (n : Nat) (h : n < 128) : n &&& 31 = n % 32 := by
  have hall : ∀ m : Nat, m < 128 → m &&& 31 = m % 32 := by decide
  exact hall n h

/-- C7: the key encoder maps the reserved detach shortcut Ctrl+e to no
bytes, so it can never be forwarded to the remote exec session; every
other Ctrl+letter combination encodes to exactly the single control
byte of that letter (its code point mod 32). -/
theorem claim_C7 (c : Char) (m : KeyModifiers) (hctrl : m.control = true)
    (hletter : (97 ≤ c.toNat ∧ c.toNat ≤ 122) ∨ (65 ≤ c.toNat ∧ c.toNat ≤ 90))
    (hne : c ≠ 'e') :
    encode_key_event { code := KeyCode.char 'e', modifiers := m } = none
    ∧ encode_key_event { code := KeyCode.char c, modifiers := m } = some [c.toNat % 32] := by
  constructor
  · simp [encode_key_event, hctrl]
  · have hne2 : ¬(KeyCode.char c = KeyCode.char 'e' ∧ m.control = true) := by
      intro hand
      exact hne (by injection hand.1)
    have hsmall : c.toNat < 128 := by
      rcases hletter with ⟨_, h2⟩ | ⟨_, h2⟩ <;> omega
    simp only [encode_key_event]
    rw [if_neg hne2, if_pos hctrl]
    rw [Nat.mod_eq_of_lt (by omega : c.toNat < 256), land_31_eq_mod c.toNat hsmall]

/-- C7 witness: Ctrl+c (letter c, code 99) encodes to the single
control byte 3, while Ctrl+e encodes to nothing. -/
theorem claim_C7_witness :
    encode_key_event
        { code := KeyCode.char 'e', modifiers := { shift := false, control := true, alt := false } }
      = none
    ∧ encode_key_event
        { code := KeyCode.char 'c', modifiers := { shift := false, control := true, alt := false } }
      = some [('c').toNat % 32] :=
  claim_C7 'c' { shift := false, control := true, alt := false } rfl
    (Or.inl (by decide)) (by decide)

/-- C8: for entrypoint ["/bin/bash"] and empty cmd the selector keeps
the shell invocation and appends the interactive flag, returning
exactly ["/bin/bash", "-i"]. -/
theorem claim_C8 : select_exec_command ["/bin/bash"] [] = ["/bin/bash", "-i"] := by
  decide

/-- C9: for entrypoint ["/usr/bin/myserver"] and cmd ["--port","8080"],
neither of which looks like a shell invocation, the selector falls back
to the fixed generic shell invocation ["/bin/sh","-lc"]. -/
theorem claim_C9 :
    looks_like_shell ["/usr/bin/myserver"] = false
    ∧ looks_like_shell ["--port", "8080"] = false
    ∧ select_exec_command ["/usr/bin/myserver"] ["--port", "8080"] = ["/bin/sh", "-lc"] := by
  decide

/-- C10: for every entrypoint/cmd pair the selector returns a
non-empty command vector. -/
theorem claim_C10 (entrypoint cmd : List String) :
    select_exec_command entrypoint cmd ≠ [] := by
  unfold select_exec_command
  split
  · cases h : entrypoint ++ cmd with
    | nil => simp [h]
    | cons a t =>
      simp only [h]
      split
      · simp_all
      · split <;> simp
  · simp

/-- A fetch-start call never changes the connection flag. -/
theorem start_fetch_connected (app : App) (p : FetchKind × String) :
    (start_fetch app p).docker_connected = app.docker_connected := by
  rcases p with ⟨k, id⟩
  cases k <;> simp only [start_fetch, start_log_streaming, start_stats_streaming] <;>
    split <;> rfl

/-- A sequence of fetch-start calls never changes the connection
flag. -/
theorem runStarts_connected (l : List (FetchKind × String)) (app : App) :
    (runStarts app l).docker_connected = app.docker_connected := by
  induction l generalizing app with
  | nil => rfl
  | cons p t ih =>
    show (runStarts (start_fetch app p) t).docker_connected = _
    rw [ih, start_fetch_connected]

/-- A fetch-start call never decreases the channel counter. -/
theorem start_fetch_next_le (app : App) (p : FetchKind × String) :
    app.next_channel ≤ (start_fetch app p).next_channel := by
  rcases p with ⟨k, id⟩
  cases k <;> simp only [start_fetch, start_log_streaming, start_stats_streaming] <;>
    split <;> simp

/-- A connected fetch-start call allocates exactly one fresh
channel. -/
theorem start_fetch_next_connected (app : App) (p : FetchKind × String)
    (h : app.docker_connected = true) :
    (start_fetch app p).next_channel = app.next_channel + 1 := by
  rcases p with ⟨k, id⟩
  cases k <;> simp [start_fetch, start_log_streaming, start_stats_streaming, h]

/-- A connected fetch-start call stores the receiver of the freshly
allocated channel for its kind. -/
theorem start_fetch_rx_self (app : App) (k : FetchKind) (id : String)
    (h : app.docker_connected = true) :
    rxOf k (start_fetch app (k, id)) = some app.next_channel := by
  cases k <;> simp [start_fetch, start_log_streaming, start_stats_streaming, rxOf, h]

/-- A fetch-start call for one kind leaves the other kind's receiver
alone. -/
theorem start_fetch_rx_other (app : App) (k k' : FetchKind) (id : String) (h : k ≠ k') :
    rxOf k (start_fetch app (k', id)) = rxOf k app := by
  cases k <;> cases k' <;>
    first
    | exact absurd rfl h
    | simp only [start_fetch, start_log_streaming, start_stats_streaming, rxOf] <;>
        split <;> rfl

/-- Fetch-start calls of other kinds preserve a kind's receiver. -/
theorem runStarts_rx_not_mem (k : FetchKind) (l : List (FetchKind × String)) (app : App)
    (h : k ∉ l.map Prod.fst) :
    rxOf k (runStarts app l) = rxOf k app := by
  induction l generalizing app with
  | nil => rfl
  | cons p t ih =>
    rcases p with ⟨k', id⟩
    have hk : k ≠ k' := by
      intro he
      exact h (by simp [he])
    have ht : k ∉ t.map Prod.fst := by
      intro hm
      exact h (by simp [hm])
    show rxOf k (runStarts (start_fetch app (k', id)) t) = _
    rw [ih _ ht, start_fetch_rx_other app k k' id hk]

/-- After a connected sequence containing a start for kind `k`, the
held receiver for `k` is a channel at least as fresh as the sequence's
starting counter. -/
theorem runStarts_rx_mem (k : FetchKind) (l : List (FetchKind × String)) (app : App)
    (hconn : app.docker_connected = true) (h : k ∈ l.map Prod.fst) :
    ∃ w, rxOf k (runStarts app l) = some w ∧ app.next_channel ≤ w := by
  induction l generalizing app with
  | nil => simp at h
  | cons p t ih =>
    rcases p with ⟨k', id⟩
    by_cases hk : k ∈ t.map Prod.fst
    · have hconn2 : (start_fetch app (k', id)).docker_connected = true := by
        rw [start_fetch_connected]; exact hconn
      obtain ⟨w, hw, hle⟩ := ih (start_fetch app (k', id)) hconn2 hk
      exact ⟨w, hw, le_trans (start_fetch_next_le app (k', id)) hle⟩
    · have he : k = k' := by
        have h2 : k ∈ k' :: t.map Prod.fst := by
          simpa only [List.map_cons] using h
        rcases List.mem_cons.mp h2 with he | hm
        · exact he
        · exact absurd hm hk
      subst he
      refine ⟨app.next_channel, ?_, le_refl _⟩
      show rxOf k (runStarts (start_fetch app (k, id)) t) = _
      rw [runStarts_rx_not_mem k t _ hk, start_fetch_rx_self app k id hconn]

/-- C1: at most one in-flight fetch (one live receiver) exists per
resource kind at any instant, and starting a new fetch for a kind
drops the previous receiver: the worker started by the fetch-start
call after `l1` sends on channel `(runStarts app0 l1).next_channel`,
whose receiver that call stores; after any later fetch-start call for
the same kind (one exists in `l2`), that channel's receiver is no
longer held, so the earlier worker's result can never be observed or
merged into state. -/
theorem claim_C1 (app0 : App) (hconn : app0.docker_connected = true)
    (l1 l2 : List (FetchKind × String)) (k k' : FetchKind) (cid : String)
    (hl : k ∈ l2.map Prod.fst) :
    fetchObservable k (runStarts app0 l1).next_channel
      (start_fetch (runStarts app0 l1) (k, cid))
    ∧ ¬ fetchObservable k (runStarts app0 l1).next_channel
      (runStarts app0 (l1 ++ (k, cid) :: l2))
    ∧ (inflightReceivers k' (runStarts app0 (l1 ++ (k, cid) :: l2))).length ≤ 1 := by
  have hc1 : (runStarts app0 l1).docker_connected = true := by
    rw [runStarts_connected]; exact hconn
  refine ⟨start_fetch_rx_self _ k cid hc1, ?_, ?_⟩
  · have hsplit : runStarts app0 (l1 ++ (k, cid) :: l2)
        = runStarts (start_fetch (runStarts app0 l1) (k, cid)) l2 := by
      simp [runStarts, List.foldl_append]
    have hc2 : (start_fetch (runStarts app0 l1) (k, cid)).docker_connected = true := by
      rw [start_fetch_connected]; exact hc1
    obtain ⟨w, hw, hle⟩ := runStarts_rx_mem k l2 _ hc2 hl
    rw [start_fetch_next_connected _ _ hc1] at hle
    intro hobs
    rw [fetchObservable, hsplit, hw] at hobs
    have : w = (runStarts app0 l1).next_channel := by injection hobs
    omega
  · unfold inflightReceivers
    cases rxOf k' (runStarts app0 (l1 ++ (k, cid) :: l2)) <;> simp

/-- A concrete initial application: connected, no views, no receivers,
no session. -/
def appInit : App :=
  { state :=
      { containers := []
        notifications := []
        log_view := none
        stats_view := none
        exec_view := none
        terminal_size := (80, 24) }
    docker_connected := true
    log_fetch_rx := none
    stats_fetch_rx := none
    exec_runtime := none
    exec_start_rx := none
    exec_start_pending := none
    jobs := []
    next_channel := 0 }

/-- C1 witness: starting a log fetch for "a" and then one for "b" from
the initial application; the first worker's channel (0) is stored by
its start and no longer held at the end, and the final state holds at
most one stats receiver. -/
theorem claim_C1_witness :
    fetchObservable FetchKind.log (runStarts appInit []).next_channel
      (start_fetch (runStarts appInit []) (FetchKind.log, "a"))
    ∧ ¬ fetchObservable FetchKind.log (runStarts appInit []).next_channel
      (runStarts appInit ([] ++ (FetchKind.log, "a") :: [(FetchKind.log, "b")]))
    ∧ (inflightReceivers FetchKind.stats
        (runStarts appInit ([] ++ (FetchKind.log, "a") :: [(FetchKind.log, "b")]))).length ≤ 1 :=
  claim_C1 appInit rfl [] [(FetchKind.log, "b")] FetchKind.log FetchKind.stats "a"
    (by simp)

/-- C2: while a session is Running for container A, or (with no
session) a start is pending for A, requesting an exec start for a
different container B leaves every piece of exec state — the runtime,
the pending record, the receivers, the exec view, the whole state
slice — unchanged, submits no new start job, allocates no channel, and
appends exactly one Warning-level notification. -/
theorem claim_C2 (app : App) (A B : String) (hAB : A ≠ B)
    (h : (∃ rt, app.exec_runtime = some rt ∧ rt.container_id = A)
       ∨ (app.exec_runtime = none
          ∧ ∃ p, app.exec_start_pending = some p ∧ p.container_id = A)) :
    ∃ msg, start_exec_for_container app B
      = { app with state := app.state.add_notification msg NotificationLevel.warning } := by
  rcases h with ⟨rt, hrt, hid⟩ | ⟨hrt, p, hp, hid⟩
  · refine ⟨"Exec already active for another container", ?_⟩
    have hne : (rt.container_id == B) = false := by
      rw [hid]
      exact beq_false_of_ne hAB
    simp [start_exec_for_container, hrt, hne]
  · refine ⟨"Exec already starting for another container", ?_⟩
    have hne : (p.container_id == B) = false := by
      rw [hid]
      exact beq_false_of_ne hAB
    simp [start_exec_for_container, hrt, hp, hne]

/-- A concrete runtime for a session on container "a". -/
def rtA : ExecRuntime :=
  { exec_id := "e1"
    container_id := "a"
    parser := Term.init 8 24
    output_rx := []
    size := (24, 8) }

/-- A concrete application Running for container "a". -/
def appRunningA : App := { appInit with exec_runtime := some rtA }

/-- C2 witness: with a session Running for "a", requesting an exec
start for "b" only appends one warning notification. -/
theorem claim_C2_witness :
    ∃ msg, start_exec_for_container appRunningA "b"
      = { appRunningA with
          state := appRunningA.state.add_notification msg NotificationLevel.warning } :=
  claim_C2 appRunningA "a" "b" (by decide) (Or.inl ⟨rtA, rfl, rfl⟩)

/-- C6: requesting an exec start for container A while a session is
Running for A (with no pending start or start receiver, as after
promotion), or while a start is pending for A, closes it back to Idle —
runtime, pending record and receiver all cleared, exec view closed,
no notification and no new job — and a subsequent poll of exec-start
completion is a no-op whatever the channel would deliver. -/
theorem claim_C6 (app : App) (A : String) (recv : RecvOutcome ExecStartResultM)
    (h : (∃ rt, app.exec_runtime = some rt ∧ rt.container_id = A
          ∧ app.exec_start_pending = none ∧ app.exec_start_rx = none)
       ∨ (app.exec_runtime = none
          ∧ ∃ p, app.exec_start_pending = some p ∧ p.container_id = A)) :
    (start_exec_for_container app A).exec_runtime = none
    ∧ (start_exec_for_container app A).exec_start_pending = none
    ∧ (start_exec_for_container app A).exec_start_rx = none
    ∧ (start_exec_for_container app A).state.exec_view = none
    ∧ (start_exec_for_container app A).state.notifications = app.state.notifications
    ∧ (start_exec_for_container app A).jobs = app.jobs
    ∧ check_exec_start (start_exec_for_container app A) recv
        = start_exec_for_container app A := by
  have happ : (start_exec_for_container app A).exec_runtime = none
      ∧ (start_exec_for_container app A).exec_start_pending = none
      ∧ (start_exec_for_container app A).exec_start_rx = none
      ∧ (start_exec_for_container app A).state.exec_view = none
      ∧ (start_exec_for_container app A).state.notifications = app.state.notifications
      ∧ (start_exec_for_container app A).jobs = app.jobs := by
    rcases h with ⟨rt, hrt, hid, hpend, hrx⟩ | ⟨hrt, p, hp, hid⟩
    · have hb : (rt.container_id == A) = true := by
        rw [hid]
        exact beq_self_eq_true A
      simp [start_exec_for_container, hrt, hb, AppState.close_exec_view, hpend, hrx]
    · have hb : (p.container_id == A) = true := by
        rw [hid]
        exact beq_self_eq_true A
      simp [start_exec_for_container, hrt, hp, hb, AppState.close_exec_view]
  obtain ⟨h1, h2, h3, h4, h5, h6⟩ := happ
  refine ⟨h1, h2, h3, h4, h5, h6, ?_⟩
  unfold check_exec_start
  rw [h3]

/-- C6 witness: with a session Running for "a" (receiver and pending
record already cleared by promotion), requesting an exec start for "a"
returns to Idle, and polling exec-start completion afterwards — even
with a started-result delivery pending on a stale channel — changes
nothing. -/
theorem claim_C6_witness :
    (start_exec_for_container appRunningA "a").exec_runtime = none
    ∧ (start_exec_for_container appRunningA "a").exec_start_pending = none
    ∧ (start_exec_for_container appRunningA "a").exec_start_rx = none
    ∧ (start_exec_for_container appRunningA "a").state.exec_view = none
    ∧ (start_exec_for_container appRunningA "a").state.notifications
        = appRunningA.state.notifications
    ∧ (start_exec_for_container appRunningA "a").jobs = appRunningA.jobs
    ∧ check_exec_start (start_exec_for_container appRunningA "a")
        (RecvOutcome.ready (ExecStartResultM.started "e2" "a" "web" (24, 8)))
        = start_exec_for_container appRunningA "a" :=
  claim_C6 appRunningA "a" (RecvOutcome.ready (ExecStartResultM.started "e2" "a" "web" (24, 8)))
    (Or.inl ⟨rtA, rfl, rfl, rfl, rfl⟩)

/-- C3 counterexample: a log fetch whose stream hangs before its first
item is abandoned via the per-item timeout but reported as a success
with zero entries — `fetch_logs` returns `Ok([])`, not an error — and
polling that result surfaces no notification at all, so the claim that
a hung fetch is always reported as an error (an Error notification)
fails for the logs coordinator. -/
theorem claim_C3_counterexample :
    fetch_logs 100 [LogStreamEvent.hang] = Except.ok []
    ∧ (check_log_fetch { appInit with log_fetch_rx := some 0 }
        (RecvOutcome.ready (Except.ok []))).state.notifications = [] :=
  ⟨rfl, rfl⟩

/-- The `fetch_logs` loop never examines stream events after a hang:
the timeout branch breaks out of the loop. -/
theorem fetch_logs_loop_hang_abandons (tail : Nat) (pre rest : List LogStreamEvent)
    (acc : List LogEntryM) :
    fetch_logs_loop tail acc (pre ++ LogStreamEvent.hang :: rest)
      = fetch_logs_loop tail acc (pre ++ [LogStreamEvent.hang]) := by
  induction pre generalizing acc with
  | nil => rfl
  | cons e t ih =>
    cases e with
    | okItem entry =>
      simp only [List.cons_append, fetch_logs_loop]
      split
      · rfl
      · exact ih _
    | badItem => exact ih _
    | streamEnd => rfl
    | hang => rfl

/-- C3 as amended: a hung stats fetch is abandoned with the timeout
error, and polling any failed stats fetch surfaces exactly one Error
notification; a hung log fetch is abandoned too — stream events after
the hang are never examined — but its outcome is a success carrying
the entries read before the hang (possibly zero), as is every
`fetch_logs` outcome.  Neither call examines the stream beyond the
hang, so neither blocks. -/
theorem claim_C3_amended (tail : Nat) (pre rest : List LogStreamEvent)
    (app : App) (ch : Nat) (m : String) :
    fetch_stats StatsStreamEvent.hang = Except.error "Timeout waiting for stats"
    ∧ (check_stats_fetch { app with stats_fetch_rx := some ch }
        (RecvOutcome.ready (Except.error m))).state.notifications
        = (app.state.add_notification ("Failed to fetch stats: " ++ m)
            NotificationLevel.error).notifications
    ∧ fetch_logs tail (pre ++ LogStreamEvent.hang :: rest)
        = fetch_logs tail (pre ++ [LogStreamEvent.hang])
    ∧ ∃ entries, fetch_logs tail (pre ++ LogStreamEvent.hang :: rest) = Except.ok entries := by
  refine ⟨rfl, ?_, ?_, ⟨_, rfl⟩⟩
  · simp [check_stats_fetch, AppState.set_stats_error, AppState.add_notification]
    cases hsv : app.state.stats_view <;> simp [hsv]
  · unfold fetch_logs
    rw [fetch_logs_loop_hang_abandons]

/-- A concrete application with an open log view in follow mode and
one log fetch in flight. -/
def appLogFetch : App :=
  { appInit with
    log_fetch_rx := some 0
    state :=
      { appInit.state with
        log_view := some
          { container_id := "a"
            container_name := "web"
            logs := []
            scroll_offset := 0
            follow := true
            max_lines := 1000 } } }

/-- C4 counterexample: polling a log fetch that completed successfully
with 0 entries leaves the notification queue empty — no Warning
notification "No logs found" (nor any other) is emitted anywhere in
the code — and appends no lines; only the in-flight marker is
cleared. -/
theorem claim_C4_counterexample :
    (check_log_fetch appLogFetch (RecvOutcome.ready (Except.ok []))).state.notifications = []
    ∧ (check_log_fetch appLogFetch (RecvOutcome.ready (Except.ok []))).state.log_view
        = appLogFetch.state.log_view
    ∧ (check_log_fetch appLogFetch (RecvOutcome.ready (Except.ok []))).log_fetch_rx = none :=
  ⟨rfl, rfl, rfl⟩

/-- C4 as amended: when a log fetch completes successfully with 0
entries within the timeout, the poll step appends no lines to the log
view buffer and emits no notification of any kind; its only effect is
clearing the in-flight receiver. -/
theorem claim_C4_amended (app : App) (ch : Nat) :
    check_log_fetch { app with log_fetch_rx := some ch } (RecvOutcome.ready (Except.ok []))
      = { app with log_fetch_rx := none } := by
  simp [check_log_fetch]

/-- The output bytes "hello\r\n". -/
def helloBytes : List Nat := [104, 101, 108, 108, 111, 13, 10]

/-- C5: with a Running session whose output channel delivers the bytes
"hello\r\n" followed by the end sentinel, the output drain recomputes
the screen lines as exactly ["hello"] (so they include "hello") and
pushing them into the exec view exposes them; the session is then torn
down — runtime dropped, exec view closed — and exactly one Info-level
notification "Exec ended" is appended, whatever the rest of the
application state is. -/
theorem claim_C5
    (cs : List ContainerInfo) (ns : List Notification) (lv : Option LogViewState)
    (sv : Option StatsViewState) (ev : ExecViewState) (ts : Nat × Nat)
    (dc : Bool) (lrx srx srtx : Option Nat) (pend : Option ExecStartPending)
    (jobs : List String) (nc : Nat) (eid cid : String) (sz : Nat × Nat) :
    let st : AppState :=
      { containers := cs, notifications := ns, log_view := lv, stats_view := sv
        exec_view := some ev, terminal_size := ts }
    let app : App :=
      { state := st
        docker_connected := dc
        log_fetch_rx := lrx
        stats_fetch_rx := srx
        exec_runtime := some
          { exec_id := eid
            container_id := cid
            parser := Term.init 5 10
            output_rx := [ExecOutputM.bytes helloBytes, ExecOutputM.streamEnd]
            size := sz }
        exec_start_rx := srtx
        exec_start_pending := pend
        jobs := jobs
        next_channel := nc }
    (drainExecOutput (Term.init 5 10) none
        [ExecOutputM.bytes helloBytes, ExecOutputM.streamEnd]).2.1 = some ["hello"]
    ∧ ((st.update_exec_screen ["hello"] none).exec_view.map ExecViewState.screen_lines)
        = some ["hello"]
    ∧ (check_exec_output app).exec_runtime = none
    ∧ (check_exec_output app).state.exec_view = none
    ∧ (check_exec_output app).state.notifications
        = (st.add_notification "Exec ended" NotificationLevel.info).notifications := by
  exact ⟨rfl, rfl, rfl, rfl, rfl⟩
